import Mathlib

/-!
Verification of the CAN transport/codec layer of the rustbot repository.

The definitions below are a shallow embedding of the Rust source:
machine integers (u8/u16/u32) are modelled as Nat with explicit
wrap-around (% 2^32) where the Rust operation wraps, i32 values are
modelled as Int with explicit two's-complement reinterpretation
helpers, byte buffers are List Nat, and fallible operations (Rust
Result / .unwrap() panics) are modelled with Except.
-/

namespace Rustbot

/-- Two's-complement reinterpretation of a u32 bit pattern as an i32. -/
def i32ofU32 (n : Nat) : Int :=
  if n < 2 ^ 31 then (n : Int) else (n : Int) - 2 ^ 32

/-- Two's-complement bit pattern (u32) of an i32 value. -/
def u32ofI32 (v : Int) : Nat :=
  (v % 2 ^ 32).toNat

/- ------------------------------------------------------------------
   src/drivers/can/messages.rs
   ------------------------------------------------------------------ -/

/-- Rust struct RawCanMessage: one raw CAN frame. -/
structure RawCanMessage where
  arbitration_id : Nat
  data : List Nat
  is_extended_id : Bool
deriving DecidableEq, Repr

/-- Rust struct OdriveArbitrationId (family A: 6-bit node, 5-bit cmd). -/
structure OdriveArbitrationId where
  node_id : Nat
  cmd_id : Nat
deriving DecidableEq, Repr

/-- OdriveArbitrationId::from_can_message. -/
def OdriveArbitrationId.from_can_message (msg : RawCanMessage) : OdriveArbitrationId :=
  { node_id := msg.arbitration_id >>> 5
    cmd_id := msg.arbitration_id &&& 0b11111 }

/-- OdriveArbitrationId::value: (node_id << 5) | cmd_id on u32. -/
def OdriveArbitrationId.value (a : OdriveArbitrationId) : Nat :=
  ((a.node_id <<< 5) % 2 ^ 32) ||| a.cmd_id

/-- Rust struct MyActuatorArbitrationId (family B: base + node, cmd in payload). -/
structure MyActuatorArbitrationId where
  node_id : Nat
  cmd_id : Nat
  custom_value : Option Nat
deriving DecidableEq, Repr

/-- MyActuatorArbitrationId::from_can_message; the `return Err` on an
empty payload and the range failure are the Err branches. -/
def MyActuatorArbitrationId.from_can_message (msg : RawCanMessage) :
    Except String MyActuatorArbitrationId :=
  if 0x140 ≤ msg.arbitration_id ∧ msg.arbitration_id < 0x160 then
    match msg.data with
    | [] => .error "No data for cmd_id"
    | d0 :: _ =>
        .ok { node_id := msg.arbitration_id - 0x140, cmd_id := d0, custom_value := none }
  else if 0x240 ≤ msg.arbitration_id ∧ msg.arbitration_id < 0x260 then
    match msg.data with
    | [] => .error "No data for cmd_id"
    | d0 :: _ =>
        .ok { node_id := msg.arbitration_id - 0x240, cmd_id := d0, custom_value := none }
  else
    .error "Invalid MyActuator arbitration ID"

/-- MyActuatorArbitrationId::value: custom_value.unwrap_or(0x140 + node_id). -/
def MyActuatorArbitrationId.value (a : MyActuatorArbitrationId) : Nat :=
  a.custom_value.getD ((0x140 + a.node_id) % 2 ^ 32)

/-- Rust struct X424ArbitrationId (family C). -/
structure X424ArbitrationId where
  node_id : Nat
  cmd_id : Nat
deriving DecidableEq, Repr

/-- X424ArbitrationId::from_can_message: node is the raw id, cmd the
first payload byte (0 when the payload is empty). -/
def X424ArbitrationId.from_can_message (msg : RawCanMessage) : X424ArbitrationId :=
  { node_id := msg.arbitration_id
    cmd_id := msg.data.headD 0 }

/-- X424ArbitrationId::value. -/
def X424ArbitrationId.value (a : X424ArbitrationId) : Nat :=
  a.node_id

/- ------------------------------------------------------------------
   src/drivers/can/enums.rs
   ------------------------------------------------------------------ -/

/-- Rust enum AxisState. -/
inductive AxisState where
  | Undefined
  | Idle
  | StartupSequence
  | FullCalibrationSequence
  | MotorCalibration
  | EncoderIndexSearch
  | EncoderOffsetCalibration
  | ClosedLoopControl
  | LockinSpin
  | EncoderDirFind
  | Homing
  | EncoderHallPolarityCalibration
  | EncoderHallPhaseCalibration
  | AnticoggingCalibration
deriving DecidableEq, Repr

/-- impl From<u8> for AxisState. -/
def AxisState.fromVal (value : Nat) : AxisState :=
  match value with
  | 1 => .Idle
  | 2 => .StartupSequence
  | 3 => .FullCalibrationSequence
  | 4 => .MotorCalibration
  | 6 => .EncoderIndexSearch
  | 7 => .EncoderOffsetCalibration
  | 8 => .ClosedLoopControl
  | 9 => .LockinSpin
  | 10 => .EncoderDirFind
  | 11 => .Homing
  | 12 => .EncoderHallPolarityCalibration
  | 13 => .EncoderHallPhaseCalibration
  | 14 => .AnticoggingCalibration
  | _ => .Undefined

/-- Rust enum ProcedureResult. -/
inductive ProcedureResult where
  | Success
  | Busy
  | Cancelled
  | Disarmed
  | NoResponse
  | PolePairCprMismatch
  | PhaseResistanceOutOfRange
  | PhaseInductanceOutOfRange
  | UnbalancedPhases
  | InvalidMotorType
  | IllegalHallState
  | Timeout
  | HomingWithoutEndstop
  | InvalidState
  | NotCalibrated
  | NotConverging
deriving DecidableEq, Repr

/-- impl From<u8> for ProcedureResult. -/
def ProcedureResult.fromVal (value : Nat) : ProcedureResult :=
  match value with
  | 0 => .Success
  | 1 => .Busy
  | 2 => .Cancelled
  | 3 => .Disarmed
  | 4 => .NoResponse
  | 5 => .PolePairCprMismatch
  | 6 => .PhaseResistanceOutOfRange
  | 7 => .PhaseInductanceOutOfRange
  | 8 => .UnbalancedPhases
  | 9 => .InvalidMotorType
  | 10 => .IllegalHallState
  | 11 => .Timeout
  | 12 => .HomingWithoutEndstop
  | 13 => .InvalidState
  | 14 => .NotCalibrated
  | 15 => .NotConverging
  | _ => .Success

/-- Rust enum X424MotorError. -/
inductive X424MotorError where
  | NoError
  | MotorOverheating
  | MotorOvercurrent
  | MotorVoltageTooLow
  | MotorEncoderError
  | MotorBrakeVoltageTooHigh
  | DrvDriveError
deriving DecidableEq, Repr

/-- X424MotorError::value. -/
def X424MotorError.value (e : X424MotorError) : Nat :=
  match e with
  | .NoError => 0
  | .MotorOverheating => 1
  | .MotorOvercurrent => 2
  | .MotorVoltageTooLow => 3
  | .MotorEncoderError => 4
  | .MotorBrakeVoltageTooHigh => 6
  | .DrvDriveError => 7

/-- X424MotorError::from_value (total: unknown bytes fall back to NoError). -/
def X424MotorError.from_value (value : Nat) : X424MotorError :=
  match value with
  | 0 => .NoError
  | 1 => .MotorOverheating
  | 2 => .MotorOvercurrent
  | 3 => .MotorVoltageTooLow
  | 4 => .MotorEncoderError
  | 6 => .MotorBrakeVoltageTooHigh
  | 7 => .DrvDriveError
  | _ => .NoError

/-- Rust enum MyActuatorV3OperatingMode. -/
inductive MyActuatorV3OperatingMode where
  | CurrentLoopControl
  | SpeedLoopControl
  | PositionLoopControl
deriving DecidableEq, Repr

/-- Rust enum MyActuatorFunctionControlIndex. -/
inductive MyActuatorFunctionControlIndex where
  | ClearMultiTurnValue
  | CanidFilterEnable
  | ErrorStatusTransmission
  | MultiTurnSaveOnPowerOff
  | SetCanid
  | SetMaxPositiveAngle
  | SetMaxNegativeAngle
deriving DecidableEq, Repr

/-- MyActuatorFunctionControlIndex::value. -/
def MyActuatorFunctionControlIndex.value (f : MyActuatorFunctionControlIndex) : Nat :=
  match f with
  | .ClearMultiTurnValue => 0x01
  | .CanidFilterEnable => 0x02
  | .ErrorStatusTransmission => 0x03
  | .MultiTurnSaveOnPowerOff => 0x04
  | .SetCanid => 0x05
  | .SetMaxPositiveAngle => 0x06
  | .SetMaxNegativeAngle => 0x07

/-- MyActuatorFunctionControlIndex::from_value. -/
def MyActuatorFunctionControlIndex.from_value (value : Nat) :
    Option MyActuatorFunctionControlIndex :=
  match value with
  | 0x01 => some .ClearMultiTurnValue
  | 0x02 => some .CanidFilterEnable
  | 0x03 => some .ErrorStatusTransmission
  | 0x04 => some .MultiTurnSaveOnPowerOff
  | 0x05 => some .SetCanid
  | 0x06 => some .SetMaxPositiveAngle
  | 0x07 => some .SetMaxNegativeAngle
  | _ => none

/-- Rust enum ODriveError (each variant is one error-mask bit). -/
inductive ODriveError where
  | None
  | Initializing
  | SystemLevel
  | TimingError
  | MissingEstimate
  | BadConfig
  | DrvFault
  | MissingInput
  | DcBusOverVoltage
  | DcBusUnderVoltage
  | DcBusOverCurrent
  | DcBusOverRegenCurrent
  | CurrentLimitViolation
  | MotorOverTemp
  | InverterOverTemp
  | VelocityLimitViolation
  | PositionLimitViolation
  | WatchdogTimerExpired
  | EstopRequested
  | SpinoutDetected
  | BrakeResistorDisarmed
  | ThermistorDisconnected
  | CalibrationError
deriving DecidableEq, Repr

/-- The discriminant (mask) value of each ODriveError variant. -/
def ODriveError.mask (e : ODriveError) : Nat :=
  match e with
  | .None => 0
  | .Initializing => 0x1
  | .SystemLevel => 0x2
  | .TimingError => 0x4
  | .MissingEstimate => 0x8
  | .BadConfig => 0x10
  | .DrvFault => 0x20
  | .MissingInput => 0x40
  | .DcBusOverVoltage => 0x100
  | .DcBusUnderVoltage => 0x200
  | .DcBusOverCurrent => 0x400
  | .DcBusOverRegenCurrent => 0x800
  | .CurrentLimitViolation => 0x1000
  | .MotorOverTemp => 0x2000
  | .InverterOverTemp => 0x4000
  | .VelocityLimitViolation => 0x8000
  | .PositionLimitViolation => 0x10000
  | .WatchdogTimerExpired => 0x100000
  | .EstopRequested => 0x200000
  | .SpinoutDetected => 0x400000
  | .BrakeResistorDisarmed => 0x800000
  | .ThermistorDisconnected => 0x1000000
  | .CalibrationError => 0x10000000

/-- One `if bits & mask != 0 { errors.push(variant) }` statement of
ODriveError::from_bits. -/
def ODriveError.pushIf (c : Prop) [Decidable c] (errors : List ODriveError)
    (e : ODriveError) : List ODriveError :=
  if c then errors ++ [e] else errors

/-- ODriveError::from_bits: the sequence of mask tests and pushes,
in source order. -/
def ODriveError.from_bits (bits : Nat) : List ODriveError :=
  let errors : List ODriveError := []
  let errors := ODriveError.pushIf (bits &&& 0x1 != 0) errors ODriveError.Initializing
  let errors := ODriveError.pushIf (bits &&& 0x2 != 0) errors ODriveError.SystemLevel
  let errors := ODriveError.pushIf (bits &&& 0x4 != 0) errors ODriveError.TimingError
  let errors := ODriveError.pushIf (bits &&& 0x8 != 0) errors ODriveError.MissingEstimate
  let errors := ODriveError.pushIf (bits &&& 0x10 != 0) errors ODriveError.BadConfig
  let errors := ODriveError.pushIf (bits &&& 0x20 != 0) errors ODriveError.DrvFault
  let errors := ODriveError.pushIf (bits &&& 0x40 != 0) errors ODriveError.MissingInput
  let errors := ODriveError.pushIf (bits &&& 0x100 != 0) errors ODriveError.DcBusOverVoltage
  let errors := ODriveError.pushIf (bits &&& 0x200 != 0) errors ODriveError.DcBusUnderVoltage
  let errors := ODriveError.pushIf (bits &&& 0x400 != 0) errors ODriveError.DcBusOverCurrent
  let errors := ODriveError.pushIf (bits &&& 0x800 != 0) errors ODriveError.DcBusOverRegenCurrent
  let errors := ODriveError.pushIf (bits &&& 0x1000 != 0) errors ODriveError.CurrentLimitViolation
  let errors := ODriveError.pushIf (bits &&& 0x2000 != 0) errors ODriveError.MotorOverTemp
  let errors := ODriveError.pushIf (bits &&& 0x4000 != 0) errors ODriveError.InverterOverTemp
  let errors := ODriveError.pushIf (bits &&& 0x8000 != 0) errors ODriveError.VelocityLimitViolation
  let errors := ODriveError.pushIf (bits &&& 0x10000 != 0) errors ODriveError.PositionLimitViolation
  let errors := ODriveError.pushIf (bits &&& 0x100000 != 0) errors ODriveError.WatchdogTimerExpired
  let errors := ODriveError.pushIf (bits &&& 0x200000 != 0) errors ODriveError.EstopRequested
  let errors := ODriveError.pushIf (bits &&& 0x400000 != 0) errors ODriveError.SpinoutDetected
  let errors := ODriveError.pushIf (bits &&& 0x800000 != 0) errors ODriveError.BrakeResistorDisarmed
  let errors := ODriveError.pushIf (bits &&& 0x1000000 != 0) errors ODriveError.ThermistorDisconnected
  let errors := ODriveError.pushIf (bits &&& 0x10000000 != 0) errors ODriveError.CalibrationError
  errors

/-- The defined error variants ordered from least-significant to
most-significant mask bit (the order of the claim's list). -/
def ODriveError.ordered : List ODriveError :=
  [.Initializing, .SystemLevel, .TimingError, .MissingEstimate, .BadConfig,
   .DrvFault, .MissingInput, .DcBusOverVoltage, .DcBusUnderVoltage,
   .DcBusOverCurrent, .DcBusOverRegenCurrent, .CurrentLimitViolation,
   .MotorOverTemp, .InverterOverTemp, .VelocityLimitViolation,
   .PositionLimitViolation, .WatchdogTimerExpired, .EstopRequested,
   .SpinoutDetected, .BrakeResistorDisarmed, .ThermistorDisconnected,
   .CalibrationError]

/-- Spec-side description of from_bits: exactly those variants whose
mask bit is set, ordered LSB to MSB. -/
def ODriveError.maskedErrorsSpec (bits : Nat) : List ODriveError :=
  ODriveError.ordered.filter (fun e => bits &&& e.mask != 0)

/- ------------------------------------------------------------------
   src/drivers/can/odrive_msgs.rs
   ------------------------------------------------------------------ -/

/-- Rust struct OdriveCanMessage (the family-A base message). -/
structure OdriveCanMessage where
  node_id : Nat
  arbitration_id : OdriveArbitrationId
deriving DecidableEq, Repr

/-- OdriveCanMessage::new. -/
def OdriveCanMessage.new (node_id cmd_id : Nat) : OdriveCanMessage :=
  { node_id := node_id, arbitration_id := { node_id := node_id, cmd_id := cmd_id } }

/-- OdriveCanMessage::cmd_id (the associated constant of the base type). -/
def OdriveCanMessage.cmd_id : Nat := 0

/-- OdriveCanMessage::matches: Self::cmd_id() == arb.cmd_id, with
Self = OdriveCanMessage (static dispatch), so the test is against 0. -/
def OdriveCanMessage.matches (msg : RawCanMessage) : Bool :=
  OdriveCanMessage.cmd_id == (OdriveArbitrationId.from_can_message msg).cmd_id

/-- OdriveCanMessage::gen_can_msg_data: vec![]. -/
def OdriveCanMessage.gen_can_msg_data (_self : OdriveCanMessage) : List Nat := []

/-- OdriveCanMessage::as_can_message: static dispatch means the data
is the base type's own gen_can_msg_data (empty). -/
def OdriveCanMessage.as_can_message (m : OdriveCanMessage) : RawCanMessage :=
  { arbitration_id := m.arbitration_id.value
    data := m.gen_can_msg_data
    is_extended_id := false }

/-- Rust struct HeartbeatMessage (cmd 0x01). -/
structure HeartbeatMessage where
  base : OdriveCanMessage
  axis_error : Nat
  axis_state : AxisState
  procedure_result : ProcedureResult
  trajectory_done : Bool
deriving DecidableEq, Repr

/-- HeartbeatMessage::cmd_id. -/
def HeartbeatMessage.cmd_id : Nat := 0x01

/-- HeartbeatMessage::new. -/
def HeartbeatMessage.new (node_id : Nat) : HeartbeatMessage :=
  { base := OdriveCanMessage.new node_id HeartbeatMessage.cmd_id
    axis_error := 0
    axis_state := AxisState.Undefined
    procedure_result := ProcedureResult.Success
    trajectory_done := false }

/-- HeartbeatMessage::matches delegates to OdriveCanMessage::matches. -/
def HeartbeatMessage.matches (msg : RawCanMessage) : Bool :=
  OdriveCanMessage.matches msg

/-- HeartbeatMessage::parse_can_msg_data: when at least 7 bytes are
present, read axis_error (u32 LE), axis_state, procedure_result and
trajectory_done; otherwise leave the fields unchanged. -/
def HeartbeatMessage.parse_can_msg_data (s : HeartbeatMessage) (msg : RawCanMessage) :
    HeartbeatMessage :=
  match msg.data with
  | b0 :: b1 :: b2 :: b3 :: b4 :: b5 :: b6 :: _ =>
      { s with
        axis_error := b0 ||| (b1 <<< 8) ||| (b2 <<< 16) ||| (b3 <<< 24)
        axis_state := AxisState.fromVal b4
        procedure_result := ProcedureResult.fromVal b5
        trajectory_done := b6 != 0 }
  | _ => s

/-- HeartbeatMessage::from_can_message. -/
def HeartbeatMessage.from_can_message (msg : RawCanMessage) : HeartbeatMessage :=
  let arb := OdriveArbitrationId.from_can_message msg
  (HeartbeatMessage.new arb.node_id).parse_can_msg_data msg

/-- HeartbeatMessage::as_can_message delegates to the base message. -/
def HeartbeatMessage.as_can_message (s : HeartbeatMessage) : RawCanMessage :=
  s.base.as_can_message

/-- BusVoltageCurrentMessage::matches delegates to OdriveCanMessage::matches. -/
def BusVoltageCurrentMessage.matches (msg : RawCanMessage) : Bool :=
  OdriveCanMessage.matches msg

/-- EncoderEstimatesMessage::matches delegates to OdriveCanMessage::matches. -/
def EncoderEstimatesMessage.matches (msg : RawCanMessage) : Bool :=
  OdriveCanMessage.matches msg

/- ------------------------------------------------------------------
   src/drivers/can/myactuator_v3_msgs.rs
   ------------------------------------------------------------------ -/

/-- Helper fn clip(val, min_val, max_val) = val.max(min_val).min(max_val). -/
def clip (val min_val max_val : Int) : Int :=
  min (max val min_val) max_val

/-- Rust struct MyActuatorCanMessage (the family-B base message). -/
structure MyActuatorCanMessage where
  node_id : Nat
  arbitration_id : MyActuatorArbitrationId
deriving DecidableEq, Repr

/-- MyActuatorCanMessage::new. -/
def MyActuatorCanMessage.new (node_id cmd_id : Nat) : MyActuatorCanMessage :=
  { node_id := node_id
    arbitration_id := { node_id := node_id, cmd_id := cmd_id, custom_value := none } }

/-- MyActuatorCanMessage::matches: arbitration id in 0x140..0x160 or
0x240..0x260. -/
def MyActuatorCanMessage.matches (msg : RawCanMessage) : Bool :=
  (0x140 ≤ msg.arbitration_id && msg.arbitration_id < 0x160) ||
  (0x240 ≤ msg.arbitration_id && msg.arbitration_id < 0x260)

/-- MyActuatorCanMessage::from_can_message: the source unwraps the
arbitration parse; the Err branch models the unwrap panic. -/
def MyActuatorCanMessage.from_can_message (msg : RawCanMessage) :
    Except String MyActuatorCanMessage :=
  match MyActuatorArbitrationId.from_can_message msg with
  | .error e => .error e
  | .ok arb_id => .ok (MyActuatorCanMessage.new arb_id.node_id arb_id.cmd_id)

/-- MyActuatorCanMessage::gen_can_msg_data: vec![0; 8]. -/
def MyActuatorCanMessage.gen_can_msg_data (_self : MyActuatorCanMessage) : List Nat :=
  [0, 0, 0, 0, 0, 0, 0, 0]

/-- MyActuatorCanMessage::as_can_message: static dispatch means the
payload is the base type's own gen_can_msg_data (eight zero bytes). -/
def MyActuatorCanMessage.as_can_message (m : MyActuatorCanMessage) : RawCanMessage :=
  { arbitration_id := m.arbitration_id.value
    data := m.gen_can_msg_data
    is_extended_id := false }

/-- Rust struct FunctionControlCommand (cmd 0x20). -/
structure FunctionControlCommand where
  base : MyActuatorCanMessage
  function : MyActuatorFunctionControlIndex
  function_value : Int
deriving DecidableEq, Repr

/-- FunctionControlCommand::cmd_id. -/
def FunctionControlCommand.cmd_id : Nat := 0x20

/-- FunctionControlCommand::new. -/
def FunctionControlCommand.new (node_id : Nat) (function : MyActuatorFunctionControlIndex)
    (function_value : Int) : FunctionControlCommand :=
  { base := MyActuatorCanMessage.new node_id FunctionControlCommand.cmd_id
    function := function
    function_value := function_value }

/-- FunctionControlCommand::gen_can_msg_data: the concrete per-type
encoder (cmd byte, function index, i32 LE value). -/
def FunctionControlCommand.gen_can_msg_data (s : FunctionControlCommand) : List Nat :=
  [FunctionControlCommand.cmd_id,
   s.function.value,
   0,
   0,
   u32ofI32 s.function_value &&& 0xFF,
   (u32ofI32 s.function_value >>> 8) &&& 0xFF,
   (u32ofI32 s.function_value >>> 16) &&& 0xFF,
   (u32ofI32 s.function_value >>> 24) &&& 0xFF]

/-- FunctionControlCommand::parse_can_msg_data. -/
def FunctionControlCommand.parse_can_msg_data (s : FunctionControlCommand)
    (msg : RawCanMessage) : Except String FunctionControlCommand :=
  match msg.data with
  | _d0 :: d1 :: _d2 :: _d3 :: d4 :: d5 :: d6 :: d7 :: _ =>
      match MyActuatorArbitrationId.from_can_message msg with
      | .error e => .error e
      | .ok arb =>
          .ok { s with
                function :=
                  (MyActuatorFunctionControlIndex.from_value d1).getD
                    MyActuatorFunctionControlIndex.ClearMultiTurnValue
                function_value :=
                  i32ofU32 ((d7 <<< 24) ||| (d6 <<< 16) ||| (d5 <<< 8) ||| d4)
                base := { s.base with node_id := arb.node_id } }
  | _ => .ok s

/-- FunctionControlCommand::from_can_message (the source unwraps the
arbitration parse; Err models the panic). -/
def FunctionControlCommand.from_can_message (msg : RawCanMessage) :
    Except String FunctionControlCommand :=
  match MyActuatorArbitrationId.from_can_message msg with
  | .error e => .error e
  | .ok arb =>
      (FunctionControlCommand.new arb.node_id
        MyActuatorFunctionControlIndex.ClearMultiTurnValue 0).parse_can_msg_data msg

/-- FunctionControlCommand::as_can_message delegates to the base message. -/
def FunctionControlCommand.as_can_message (s : FunctionControlCommand) : RawCanMessage :=
  s.base.as_can_message

/-- Rust enum ReadWriteFlag. -/
inductive ReadWriteFlag where
  | Read
  | Write
deriving DecidableEq, Repr

/-- Rust struct CANIDCommand (cmd 0x79). -/
structure CANIDCommand where
  base : MyActuatorCanMessage
  read_write_flag : ReadWriteFlag
  can_id : Nat
deriving DecidableEq, Repr

/-- CANIDCommand::cmd_id. -/
def CANIDCommand.cmd_id : Nat := 0x79

/-- CANIDCommand::new. -/
def CANIDCommand.new (node_id : Nat) (read_write_flag : ReadWriteFlag) (can_id : Nat) :
    CANIDCommand :=
  { base := MyActuatorCanMessage.new node_id CANIDCommand.cmd_id
    read_write_flag := read_write_flag
    can_id := can_id }

/-- CANIDCommand::gen_can_msg_data: the can_id field is reinterpreted
as i32 and clipped to 1..=32 before being placed in the last byte. -/
def CANIDCommand.gen_can_msg_data (s : CANIDCommand) : List Nat :=
  let flag_byte : Nat := if s.read_write_flag == ReadWriteFlag.Read then 0x01 else 0x00
  let clipped_id : Nat := (clip (i32ofU32 s.can_id) 1 32).toNat
  [CANIDCommand.cmd_id, 0, flag_byte, 0, 0, 0, 0, clipped_id]

/- ------------------------------------------------------------------
   src/drivers/can/connection.rs
   ------------------------------------------------------------------ -/

/-- socketcan StandardId::new: accepts a u16 value up to 0x7FF. -/
def standardIdNew (v : Nat) : Option Nat :=
  if v ≤ 0x7FF then some v else none

/-- socketcan ExtendedId::new: accepts a u32 value up to 0x1FFFFFFF. -/
def extendedIdNew (v : Nat) : Option Nat :=
  if v ≤ 0x1FFFFFFF then some v else none

/-- A socketcan CanFrame as produced by CanSimple::send. -/
structure CanFrame where
  id : Nat
  extended : Bool
  data : List Nat
deriving DecidableEq, Repr

/-- CanSimple::send on an already-encoded RawCanMessage: validate the
arbitration id (a standard id is first truncated by the `as u16` cast),
build the frame and enqueue it on the pending-send queue.  The error
branches return without touching the queue. -/
def CanSimple.send (raw : RawCanMessage) (pending : List CanFrame) :
    Except String (List CanFrame) :=
  if raw.is_extended_id then
    match extendedIdNew raw.arbitration_id with
    | none => .error "Invalid extended ID"
    | some id => .ok (pending ++ [{ id := id, extended := true, data := raw.data }])
  else
    match standardIdNew (raw.arbitration_id % 2 ^ 16) with
    | none => .error "Invalid standard ID"
    | some id => .ok (pending ++ [{ id := id, extended := false, data := raw.data }])

/-- The capacity of a listener's internal FIFO (mpsc::channel(32) in
CanSimpleListener::new). -/
def CanSimpleListener.queueCapacity : Nat := 32

/-- CanSimpleListener::on_message_received while the consumer is
suspended: a matching frame is pushed with blocking_send on the bounded
queue.  With the consumer suspended, a full queue makes blocking_send
wait forever; that outcome is `none`.  Non-matching frames leave the
queue untouched. -/
def CanSimpleListener.on_message_received (matchesP : RawCanMessage → Bool)
    (queue : List RawCanMessage) (msg : RawCanMessage) : Option (List RawCanMessage) :=
  if matchesP msg then
    if queue.length < CanSimpleListener.queueCapacity then some (queue ++ [msg]) else none
  else
    some queue

/-- Deliver a sequence of frames to a listener whose consumer is
suspended: frames are offered in order; the first blocked push stalls
the publisher, so later frames are never delivered. -/
def CanSimpleListener.publishWhileSuspended (matchesP : RawCanMessage → Bool) :
    List RawCanMessage → List RawCanMessage → List RawCanMessage
  | [], queue => queue
  | f :: rest, queue =>
      match CanSimpleListener.on_message_received matchesP queue f with
      | some queue2 => CanSimpleListener.publishWhileSuspended matchesP rest queue2
      | none => queue

/- ------------------------------------------------------------------
   Theorems
   ------------------------------------------------------------------ -/

/-- The raw frame of the spec's heartbeat example: standard id
(3 << 5) | 0x01 with payload axis error = 0, state = 8, result = 0,
trajectory_done = 1. -/
def heartbeatExampleFrame : RawCanMessage :=
  { arbitration_id := (3 <<< 5) ||| 0x01
    data := [0, 0, 0, 0, 8, 0, 1]
    is_extended_id := false }

/-- C1: on the example frame, HeartbeatMessage::from_can_message does
decode node_id 3, axis_state ClosedLoopControl (state 8) and
trajectory_done true, but HeartbeatMessage::matches returns false
rather than true: it delegates to OdriveCanMessage::matches, which
compares the frame's command id 0x01 against OdriveCanMessage::cmd_id()
= 0.  The claim's matches-half fails on the code. -/
theorem C1_heartbeat_example_matches_false_decode_ok :
    HeartbeatMessage.matches heartbeatExampleFrame = false ∧
    (HeartbeatMessage.from_can_message heartbeatExampleFrame).base.node_id = 3 ∧
    (HeartbeatMessage.from_can_message heartbeatExampleFrame).axis_state =
      AxisState.ClosedLoopControl ∧
    (HeartbeatMessage.from_can_message heartbeatExampleFrame).trajectory_done = true := by
  refine ⟨rfl, rfl, rfl, rfl⟩

/-- C2: the round-trip property fails.  For the concrete
FunctionControlCommand with node 1 and function_value 5, the per-type
encoder gen_can_msg_data would emit the documented payload, but
as_can_message delegates to the base MyActuatorCanMessage, whose
gen_can_msg_data is eight zero bytes (static dispatch), so decoding
the encoded frame returns function_value 0, not 5. -/
theorem C2_roundtrip_fails_function_control :
    (FunctionControlCommand.new 1 MyActuatorFunctionControlIndex.ClearMultiTurnValue
        5).function_value = 5 ∧
    (FunctionControlCommand.new 1 MyActuatorFunctionControlIndex.ClearMultiTurnValue
        5).gen_can_msg_data = [0x20, 0x01, 0, 0, 5, 0, 0, 0] ∧
    (FunctionControlCommand.new 1 MyActuatorFunctionControlIndex.ClearMultiTurnValue
        5).as_can_message.data = [0, 0, 0, 0, 0, 0, 0, 0] ∧
    (FunctionControlCommand.from_can_message
        (FunctionControlCommand.new 1 MyActuatorFunctionControlIndex.ClearMultiTurnValue
          5).as_can_message).map (fun s => s.function_value) = .ok 0 := by
  refine ⟨rfl, rfl, rfl, rfl⟩

/-- C3: sibling classification is not exclusive.  On the frame with
arbitration id 0x20 (node 1, command 0), both
BusVoltageCurrentMessage::matches and EncoderEstimatesMessage::matches
return true, because each delegates to OdriveCanMessage::matches and
therefore tests command id 0 rather than its own command id. -/
theorem C3_sibling_matchers_not_exclusive :
    BusVoltageCurrentMessage.matches { arbitration_id := 0x20, data := [], is_extended_id := false } = true ∧
    EncoderEstimatesMessage.matches { arbitration_id := 0x20, data := [], is_extended_id := false } = true := by
  refine ⟨rfl, rfl⟩

/-- C5: decode is not total on matched frames.  The frame with
arbitration id 0x145 and empty payload satisfies
MyActuatorCanMessage::matches, yet MyActuatorCanMessage::from_can_message
unwraps MyActuatorArbitrationId::from_can_message, which is
Err("No data for cmd_id") on an empty payload — the unwrap panics
instead of degrading to zero-valued fields. -/
theorem C5_matched_frame_decode_panics :
    MyActuatorCanMessage.matches { arbitration_id := 0x145, data := [], is_extended_id := false } = true ∧
    MyActuatorCanMessage.from_can_message { arbitration_id := 0x145, data := [], is_extended_id := false } =
      .error "No data for cmd_id" := by
  refine ⟨rfl, rfl⟩

/-- C9: X424MotorError::from_value is total, is a left inverse of
value() on every variant, and maps every byte outside the defined set
{0,1,2,3,4,6,7} (including 5) to NoError. -/
theorem C9_x424_motor_error_left_inverse_and_default :
    (∀ e : X424MotorError, X424MotorError.from_value e.value = e) ∧
    (∀ b : Fin 256, b.val ∉ ([0, 1, 2, 3, 4, 6, 7] : List Nat) →
      X424MotorError.from_value b.val = X424MotorError.NoError) := by
  constructor
  · intro e
    cases e <;> rfl
  · set_option maxRecDepth 4096 in decide

/-- C9 witness: the theorem instantiated at the undefined byte 5. -/
theorem C9_witness : X424MotorError.from_value 5 = X424MotorError.NoError :=
  C9_x424_motor_error_left_inverse_and_default.2 ⟨5, by decide⟩ (by decide)

/-- C10: for every CANIDCommand with a 32-bit can_id, gen_can_msg_data
returns exactly 8 bytes, the first byte is 0x79 and the last byte is
the clipped can_id, which always lies in 1..=32. -/
theorem C10_canid_command_payload_shape (node_id : Nat) (flag : ReadWriteFlag)
    (can_id : Nat) (h : can_id < 2 ^ 32) :
    ((CANIDCommand.new node_id flag can_id).gen_can_msg_data).length = 8 ∧
    ((CANIDCommand.new node_id flag can_id).gen_can_msg_data).head? = some 0x79 ∧
    ∃ lastByte, ((CANIDCommand.new node_id flag can_id).gen_can_msg_data).getLast? = some lastByte ∧
      1 ≤ lastByte ∧ lastByte ≤ 32 := by
  have h1 : (1 : Int) ≤ clip (i32ofU32 can_id) 1 32 := by
    unfold clip
    exact le_min (le_max_right _ _) (by norm_num)
  have h2 : clip (i32ofU32 can_id) 1 32 ≤ 32 := by
    unfold clip
    exact min_le_right _ _
  refine ⟨rfl, rfl, (clip (i32ofU32 can_id) 1 32).toNat, ?_, ?_, ?_⟩
  · simp [CANIDCommand.gen_can_msg_data, CANIDCommand.new]
  · omega
  · omega

/-- C10 witness: the theorem instantiated at node 1, Write flag and the
largest 32-bit can_id (which reinterprets as a negative i32 and is
clipped up to 1). -/
theorem C10_witness :
    ((CANIDCommand.new 1 ReadWriteFlag.Write 0xFFFFFFFF).gen_can_msg_data).length = 8 ∧
    ((CANIDCommand.new 1 ReadWriteFlag.Write 0xFFFFFFFF).gen_can_msg_data).head? = some 0x79 ∧
    ∃ lastByte, ((CANIDCommand.new 1 ReadWriteFlag.Write 0xFFFFFFFF).gen_can_msg_data).getLast? = some lastByte ∧
      1 ≤ lastByte ∧ lastByte ≤ 32 :=
  C10_canid_command_payload_shape 1 ReadWriteFlag.Write 0xFFFFFFFF (by norm_num)

/-- If-push normal form: pushing onto the accumulator under a test is
appending a conditional singleton segment. -/
theorem pushIf_eq_append (c : Prop) [Decidable c] (l : List ODriveError) (a : ODriveError) :
    ODriveError.pushIf c l a = l ++ (if c then [a] else []) := by
  unfold ODriveError.pushIf
  by_cases h : c <;> simp [h]

/-- Filter normal form: filtering a cons is a conditional singleton
segment followed by the filtered tail. -/
theorem filter_cons_norm {α : Type} (p : α → Bool) (a : α) (l : List α) :
    List.filter p (a :: l) = (if p a = true then [a] else []) ++ List.filter p l := by
  by_cases h : p a = true <;> simp [h]

/-- C8: ODriveError::from_bits returns exactly the variants whose mask
bit is set in the input, ordered from least- to most-significant mask;
from_bits 0 is empty and an undefined bit such as 0x80 contributes
nothing. -/
theorem C8_from_bits_is_ordered_mask_filter (bits : Nat) :
    ODriveError.from_bits bits = ODriveError.maskedErrorsSpec bits ∧
    ODriveError.from_bits 0 = [] ∧
    ODriveError.from_bits 0x80 = [] := by
  refine ⟨?_, by decide, by decide⟩
  simp only [ODriveError.from_bits, ODriveError.maskedErrorsSpec, ODriveError.ordered,
    filter_cons_norm, List.filter_nil, ODriveError.mask, pushIf_eq_append,
    List.append_assoc, List.nil_append, List.append_nil]

/-- Family-A reconstruction identity on the 11-bit standard-id range. -/
theorem odrive_value_left_inverse_aux (v : Nat) (h : v < 2 ^ 11) :
    (((v >>> 5) <<< 5) % 2 ^ 32) ||| (v &&& 0b11111) = v := by
  have hmask : (0b11111 : Nat) = 2 ^ 5 - 1 := by norm_num
  rw [hmask, Nat.and_pow_two_sub_one_eq_mod, Nat.shiftRight_eq_div_pow, Nat.shiftLeft_eq]
  have hle : v / 2 ^ 5 * 2 ^ 5 ≤ v := Nat.div_mul_le_self _ _
  rw [Nat.mod_eq_of_lt (lt_of_le_of_lt hle (lt_trans h (by norm_num)))]
  rw [mul_comm]
  rw [← Nat.mul_add_lt_is_or (Nat.mod_lt _ (by norm_num)) (v / 2 ^ 5)]
  exact Nat.div_add_mod v (2 ^ 5)

/-- C4 counterexample: the family-B reply frame with arbitration id
0x245 parses to node 5, but value() re-encodes it from the 0x140
command base, returning 0x145, not the original 0x245 — so
from_can_message is not a left inverse of value() on the whole
family-B classification range. -/
theorem C4_value_not_left_inverse_on_reply_range :
    (MyActuatorArbitrationId.from_can_message
        { arbitration_id := 0x245, data := [0x9C], is_extended_id := false }).map
      MyActuatorArbitrationId.value = .ok 0x145 ∧
    (0x145 : Nat) ≠ 0x245 := by
  refine ⟨rfl, by decide⟩

/-- C4 amended: value() is a pure function of the variant's fields
(each value() below is a function of the parsed variant alone), and
the left-inverse property holds for family A on 11-bit standard ids,
for family B on the command range 0x140..0x160 with non-empty payload,
and for family C unconditionally; on the family-B reply range
0x240..0x260, value() of the parsed variant returns the original id
minus 0x100 instead. -/
theorem C4_amended (msg : RawCanMessage) :
    (msg.arbitration_id < 2 ^ 11 →
      (OdriveArbitrationId.from_can_message msg).value = msg.arbitration_id) ∧
    (0x140 ≤ msg.arbitration_id → msg.arbitration_id < 0x160 → msg.data ≠ [] →
      (MyActuatorArbitrationId.from_can_message msg).map MyActuatorArbitrationId.value =
        .ok msg.arbitration_id) ∧
    (0x240 ≤ msg.arbitration_id → msg.arbitration_id < 0x260 → msg.data ≠ [] →
      (MyActuatorArbitrationId.from_can_message msg).map MyActuatorArbitrationId.value =
        .ok (msg.arbitration_id - 0x100)) ∧
    (X424ArbitrationId.from_can_message msg).value = msg.arbitration_id := by
  refine ⟨?_, ?_, ?_, rfl⟩
  · intro h
    have hv := odrive_value_left_inverse_aux msg.arbitration_id h
    simpa [OdriveArbitrationId.from_can_message, OdriveArbitrationId.value] using hv
  · intro h1 h2 hd
    obtain ⟨d0, rest, hmsg⟩ := List.exists_cons_of_ne_nil hd
    unfold MyActuatorArbitrationId.from_can_message
    rw [if_pos ⟨h1, h2⟩, hmsg]
    simp only [MyActuatorArbitrationId.value, Except.map, Option.getD]
    simp only [Except.ok.injEq]
    omega
  · intro h1 h2 hd
    obtain ⟨d0, rest, hmsg⟩ := List.exists_cons_of_ne_nil hd
    unfold MyActuatorArbitrationId.from_can_message
    rw [if_neg (by omega), if_pos ⟨h1, h2⟩, hmsg]
    simp only [MyActuatorArbitrationId.value, Except.map, Option.getD]
    simp only [Except.ok.injEq]
    omega

/-- C4 witness: the amended theorem instantiated on a family-B command
frame with arbitration id 0x145 and command byte 0xA2. -/
theorem C4_witness :
    (MyActuatorArbitrationId.from_can_message
        { arbitration_id := 0x145, data := [0xA2], is_extended_id := false }).map
      MyActuatorArbitrationId.value = .ok 0x145 :=
  (C4_amended { arbitration_id := 0x145, data := [0xA2], is_extended_id := false }).2.1
    (by decide) (by decide) (by decide)

/-- C6 counterexample: the ODrive message with node 2048 encodes to a
standard frame whose arbitration id 0x10000 exceeds the 11-bit
standard-id range, yet CanSimple::send succeeds, because the
`as u16` cast truncates 0x10000 to 0 before StandardId::new validates
it — the frame is enqueued with the truncated id instead of an error
being returned. -/
theorem C6_out_of_range_id_accepted :
    ((OdriveCanMessage.new 2048 0).as_can_message).is_extended_id = false ∧
    ((OdriveCanMessage.new 2048 0).as_can_message).arbitration_id = 0x10000 ∧
    0x7FF < 0x10000 ∧
    CanSimple.send ((OdriveCanMessage.new 2048 0).as_can_message) [] =
      .ok [{ id := 0, extended := false, data := [] }] := by
  refine ⟨rfl, by decide, by decide, rfl⟩

/-- C6 amended: for a standard (non-extended) frame, send() returns
the invalid-standard-id error exactly when the arbitration id
truncated to 16 bits exceeds 0x7FF; the error is returned
synchronously and the pending-send queue is left untouched, while an
accepted frame is enqueued with the truncated id. -/
theorem C6_amended (raw : RawCanMessage) (pending : List CanFrame)
    (h : raw.is_extended_id = false) :
    (raw.arbitration_id % 2 ^ 16 ≤ 0x7FF →
      CanSimple.send raw pending =
        .ok (pending ++
          [{ id := raw.arbitration_id % 2 ^ 16, extended := false, data := raw.data }])) ∧
    (0x7FF < raw.arbitration_id % 2 ^ 16 →
      CanSimple.send raw pending = .error "Invalid standard ID") := by
  unfold CanSimple.send standardIdNew
  rw [h]
  constructor
  · intro hb
    rw [if_neg (by simp), if_pos hb]
  · intro hb
    rw [if_neg (by simp), if_neg (by omega)]

/-- C6 witness: the amended theorem instantiated on a standard frame
with arbitration id 0x800, which is rejected. -/
theorem C6_witness :
    CanSimple.send { arbitration_id := 0x800, data := [], is_extended_id := false } [] =
      .error "Invalid standard ID" :=
  (C6_amended { arbitration_id := 0x800, data := [], is_extended_id := false } [] rfl).2
    (by decide)

/-- Delivering frames to a suspended listener keeps the first
(oldest) matching frames up to the queue capacity: the blocked
blocking_send never displaces what is already queued. -/
theorem publishWhileSuspended_eq_take (matchesP : RawCanMessage → Bool) :
    ∀ (frames queue : List RawCanMessage), queue.length ≤ CanSimpleListener.queueCapacity →
      CanSimpleListener.publishWhileSuspended matchesP frames queue =
        (queue ++ frames.filter matchesP).take CanSimpleListener.queueCapacity := by
  intro frames
  induction frames with
  | nil =>
      intro queue hq
      simp [CanSimpleListener.publishWhileSuspended, List.take_of_length_le hq]
  | cons f rest ih =>
      intro queue hq
      unfold CanSimpleListener.publishWhileSuspended CanSimpleListener.on_message_received
      by_cases hm : matchesP f
      · rw [if_pos hm]
        by_cases hfull : queue.length < CanSimpleListener.queueCapacity
        · rw [if_pos hfull]
          show CanSimpleListener.publishWhileSuspended matchesP rest (queue ++ [f]) = _
          rw [ih (queue ++ [f]) (by simp; omega)]
          simp [List.filter_cons, hm, List.append_assoc]
        · rw [if_neg hfull]
          show queue = _
          rw [List.take_append_of_le_length (by omega), List.take_of_length_le (by omega)]
      · rw [if_neg hm]
        show CanSimpleListener.publishWhileSuspended matchesP rest queue = _
        rw [ih queue hq]
        simp [List.filter_cons, hm]

/-- C7 amended: a listener's FIFO is bounded at its capacity of 32,
but when more matching frames are published than the capacity while
the consumer is suspended, the retained frames are the OLDEST
(first) capacity frames — blocking_send blocks the publisher on
overflow instead of dropping the oldest entry, so the most recent
frames are the ones that are never delivered. -/
theorem C7_amended (matchesP : RawCanMessage → Bool) (frames : List RawCanMessage) :
    CanSimpleListener.publishWhileSuspended matchesP frames [] =
      (frames.filter matchesP).take CanSimpleListener.queueCapacity := by
  simpa using publishWhileSuspended_eq_take matchesP frames [] (by simp)

/-- A run of 33 distinct matching frames (command 0, nodes 0..32). -/
def overflowRunFrames : List RawCanMessage :=
  (List.range 33).map (fun k =>
    { arbitration_id := k <<< 5, data := [], is_extended_id := false })

/-- C7 counterexample: publishing 33 matching frames to a suspended
listener retains the first 32 frames, not the most recent 32 — the
oldest entry is never dropped on overflow. -/
theorem C7_retains_oldest_not_most_recent :
    CanSimpleListener.publishWhileSuspended OdriveCanMessage.matches overflowRunFrames [] =
      overflowRunFrames.take 32 ∧
    CanSimpleListener.publishWhileSuspended OdriveCanMessage.matches overflowRunFrames [] ≠
      overflowRunFrames.drop 1 := by
  constructor
  · decide
  · decide

end Rustbot
